import Mathlib

/-!
Verification development for the requirement-clarity auditor
(`src/auditor.py`).  The Python module is shallowly embedded: JSON values
returned by `json.loads` become the inductive `JValue` (Python dicts are
association lists in insertion order, as Python guarantees), pure Python
functions become Lean functions, and the fallible paths of `run_audit`
(model-client failures, JSON extraction/parse failures) are explicit
`Except` values absorbed by the retry loop.

Known, deliberate domain restrictions of the embedding, each harmless to
the statements proved here: JSON numbers are modelled as integers only
(floating point is outside the embedding); Python `repr` of strings is
modelled without quote/backslash escaping (it only feeds the Low/Medium/High
membership test, where any list/dict repr starts with a bracket and so never
matches); `int()` of strings with underscore separators or non-ASCII digits
is not modelled; `\u` string escapes decode a single code unit without
surrogate pairing.
-/

set_option maxRecDepth 10000

namespace Auditor

/-- JSON-like values as produced by `json.loads`: `None`, `bool`, `int`,
`str`, `list`, `dict` (a dict is an association list in insertion order). -/
inductive JValue where
  | null : JValue
  | bool : Bool → JValue
  | int : Int → JValue
  | str : String → JValue
  | arr : List JValue → JValue
  | obj : List (String × JValue) → JValue

namespace JValue

/-- Python `isinstance(v, dict)`. -/
def isObj : JValue → Bool
  | .obj _ => true
  | _ => false

end JValue

/-- Python `d.get(k)` / `k in d` lookup on a dict in insertion order. -/
def lookupKey : List (String × JValue) → String → Option JValue
  | [], _ => none
  | (k', v) :: rest, k => if k' = k then some v else lookupKey rest k

/-- Python `k in d`. -/
def containsKey (l : List (String × JValue)) (k : String) : Bool :=
  (lookupKey l k).isSome

/-- Python dict assignment `d[k] = v`: replaces the value in place when the
key is present (keeping its position), otherwise appends the new key at the
end, exactly as the insertion-ordered dicts of Python behave. -/
def dictSet : List (String × JValue) → String → JValue → List (String × JValue)
  | [], k, v => [(k, v)]
  | (k', v') :: rest, k, v =>
    if k' = k then (k', v) :: rest else (k', v') :: dictSet rest k v

/-- In-place update of the value at a key (leaves the dict unchanged when
the key is absent; used to model `fallback["executive_summary"][...] = ...`
where the key is statically present). -/
def updateKey : List (String × JValue) → String → (JValue → JValue) → List (String × JValue)
  | [], _, _ => []
  | (k', v') :: rest, k, f =>
    if k' = k then (k', f v') :: rest else (k', v') :: updateKey rest k f

mutual

/-- The inner `merge(a, b)` of `_ensure_required_shape`: `a` is the default,
`b` the model output; recurse when both are dicts, otherwise prefer `b`
unless it is `None`. -/
def merge : JValue → JValue → JValue
  | JValue.obj a, JValue.obj bs => JValue.obj (mergeList a bs)
  | a, JValue.null => a
  | _, b => b
termination_by _ b => sizeOf b

/-- The dict case of `merge`: `out = dict(a)`, then for each `(k, v)` of `b`
in order, `out[k] = merge(out[k], v)` when `k` is already present, else
`out[k] = v`. -/
def mergeList : List (String × JValue) → List (String × JValue) → List (String × JValue)
  | out, [] => out
  | out, (k, v) :: rest =>
    match lookupKey out k with
    | some old => mergeList (dictSet out k (merge old v)) rest
    | none => mergeList (dictSet out k v) rest
termination_by _ l => sizeOf l

end

mutual

/-- Fuel-indexed computation twin of `merge`, used only to evaluate the
well-founded `merge` on closed inputs by kernel reduction; `mergeF_eq_aux`
below proves it agrees with `merge` whenever the fuel dominates the
recursion measure. -/
def mergeF : Nat → JValue → JValue → JValue
  | 0, a, _ => a
  | fuel + 1, a, b =>
    match a, b with
    | JValue.obj as, JValue.obj bs => JValue.obj (mergeListF fuel as bs)
    | a, JValue.null => a
    | _, b => b

/-- Fuel-indexed computation twin of `mergeList`. -/
def mergeListF : Nat → List (String × JValue) → List (String × JValue) → List (String × JValue)
  | 0, out, _ => out
  | _ + 1, out, [] => out
  | fuel + 1, out, (k, v) :: rest =>
    match lookupKey out k with
    | some old => mergeListF fuel (dictSet out k (mergeF fuel old v)) rest
    | none => mergeListF fuel (dictSet out k v) rest

end

/-! ### Python string primitives used by the auditor -/

/-- The ASCII whitespace characters recognised by Python `str.strip()`. -/
def isPyWs (c : Char) : Bool :=
  c = ' ' || c = '\t' || c = '\n' || c = '\r' || c = '\x0b' || c = '\x0c'

/-- Python `str.strip()` on a character list. -/
def pyStripList (cs : List Char) : List Char :=
  ((cs.dropWhile isPyWs).reverse.dropWhile isPyWs).reverse

/-- Python `str.strip()`. -/
def pyStripStr (s : String) : String :=
  String.mk (pyStripList s.data)

/-- One step of Python `str.title()`: a letter is uppercased when the
previous character is not a letter, lowercased otherwise; other characters
pass through and reset the word boundary. -/
def pyTitleGo : Bool → List Char → List Char
  | _, [] => []
  | prevAlpha, c :: cs =>
    (if c.isAlpha then (if prevAlpha then c.toLower else c.toUpper) else c)
      :: pyTitleGo c.isAlpha cs

/-- Python `str.title()` (ASCII letters; the auditor only compares the
result against the ASCII tokens Low/Medium/High). -/
def pyTitleStr (s : String) : String :=
  String.mk (pyTitleGo false s.data)

mutual

/-- Python `repr` of a `json.loads` value (string escaping simplified:
quotes/backslashes inside strings are not escaped, which never changes
membership in the Low/Medium/High token set used by the auditor). -/
def pyRepr : JValue → String
  | JValue.null => "None"
  | JValue.bool true => "True"
  | JValue.bool false => "False"
  | JValue.int n => toString n
  | JValue.str s => "\x27" ++ s ++ "\x27"
  | JValue.arr xs => "[" ++ String.intercalate ", " (pyReprItems xs) ++ "]"
  | JValue.obj kvs => "\x7b" ++ String.intercalate ", " (pyReprPairs kvs) ++ "\x7d"

def pyReprItems : List JValue → List String
  | [] => []
  | x :: xs => pyRepr x :: pyReprItems xs

def pyReprPairs : List (String × JValue) → List String
  | [] => []
  | (k, v) :: rest => ("\x27" ++ k ++ "\x27: " ++ pyRepr v) :: pyReprPairs rest

end

/-- Python `str(v)` on a `json.loads` value: the identity on strings,
`repr` otherwise. -/
def pyStr : JValue → String
  | JValue.str s => s
  | v => pyRepr v

/-- Decimal digit run to a natural number. -/
def digitsToNat (ds : List Char) : Nat :=
  ds.foldl (fun n c => n * 10 + (c.toNat - '0'.toNat)) 0

/-- Python `int(s)` on a string: optional surrounding whitespace, optional
single sign, one or more ASCII digits; anything else raises (`none`). -/
def pyIntOfStr (s : String) : Option Int :=
  let cs := pyStripList s.data
  let core : List Char → Option Int := fun ds =>
    if ds ≠ [] && ds.all Char.isDigit then some (Int.ofNat (digitsToNat ds)) else none
  match cs with
  | '-' :: ds => (core ds).map (fun n => -n)
  | '+' :: ds => core ds
  | ds => core ds

/-- Python `int(v)` on a `json.loads` value: ints pass through, bools become
0/1, numeric strings parse, everything else raises (`none`). -/
def pyInt : JValue → Option Int
  | JValue.int n => some n
  | JValue.bool b => some (if b then 1 else 0)
  | JValue.str s => pyIntOfStr s
  | _ => none

/-- The `risk` normalisation of `_ensure_required_shape`:
`str(x).strip().title()`, then membership in \x7b"Low","Medium","High"\x7d,
else "High". -/
def normalizeRiskStr (s : String) : String :=
  let r := pyTitleStr (pyStripStr s)
  if r = "Low" || r = "Medium" || r = "High" then r else "High"

/-! ### The fallback report (`_default_report`) -/

/-- Source `_default_report()`: the canonical fallback report returned when the
model fails, transcribed field by field from the source. -/
def defaultReport : List (String × JValue) :=
  [ ("clarity_score", JValue.int 20),
    ("risk_level", JValue.str "High"),
    ("executive_summary", JValue.obj
      [ ("top_gaps", JValue.arr
          [ JValue.str "Requirement lacks sufficient detail to be implementation-ready.",
            JValue.str "Success criteria and measurable targets are missing.",
            JValue.str "Edge cases and failure handling are not defined." ]),
        ("top_quick_fixes", JValue.arr
          [ JValue.str "Define endpoints, request/response fields, and authentication approach.",
            JValue.str "Add measurable performance targets (latency, timeouts, throughput).",
            JValue.str "Document failure modes and write Given/When/Then acceptance criteria." ]) ]),
    ("contract_completeness", JValue.obj
      [ ("checklist", JValue.arr
          [ JValue.obj [("item", JValue.str "Endpoint path and HTTP method defined"), ("status", JValue.str "No"), ("notes", JValue.str "")],
            JValue.obj [("item", JValue.str "Authentication/authorization defined"), ("status", JValue.str "No"), ("notes", JValue.str "")],
            JValue.obj [("item", JValue.str "Request schema defined"), ("status", JValue.str "No"), ("notes", JValue.str "")],
            JValue.obj [("item", JValue.str "Response schema defined"), ("status", JValue.str "No"), ("notes", JValue.str "")],
            JValue.obj [("item", JValue.str "Error handling and status codes defined"), ("status", JValue.str "No"), ("notes", JValue.str "")],
            JValue.obj [("item", JValue.str "Versioning strategy defined"), ("status", JValue.str "No"), ("notes", JValue.str "")],
            JValue.obj [("item", JValue.str "Rate limits/timeouts/retries defined"), ("status", JValue.str "No"), ("notes", JValue.str "")],
            JValue.obj [("item", JValue.str "Idempotency behavior defined (if applicable)"), ("status", JValue.str "No"), ("notes", JValue.str "")],
            JValue.obj [("item", JValue.str "Observability/logging/metrics defined"), ("status", JValue.str "No"), ("notes", JValue.str "")] ]) ]),
    ("measurability_audit", JValue.obj
      [ ("missing_metrics", JValue.arr
          [ JValue.str "Latency target", JValue.str "Timeout policy",
            JValue.str "Throughput expectations", JValue.str "Success metric definition" ]),
        ("suggested_metrics", JValue.arr
          [ JValue.str "Define p95 latency target (e.g., <= 250ms) for core endpoints.",
            JValue.str "Define request timeout and retry behavior (e.g., 3 retries with exponential backoff).",
            JValue.str "Define throughput or QPS expectation and scaling assumptions.",
            JValue.str "Define success criteria (e.g., error rate, completion rate, SLO)." ]) ]),
    ("ambiguity_flags", JValue.arr
      [ JValue.obj
          [ ("phrase", JValue.str "fast / scalable / reliable (if used)"),
            ("issue", JValue.str "These are subjective without measurable thresholds."),
            ("suggested_rewrite", JValue.str "Specify measurable targets (latency p95, QPS, error rate, availability).") ] ]),
    ("edge_case_coverage", JValue.obj
      [ ("missing_edge_cases", JValue.arr
          [ JValue.str "Invalid or missing required fields",
            JValue.str "Authentication failures",
            JValue.str "Dependency timeouts and failures",
            JValue.str "Duplicate requests and idempotency" ]),
        ("clarifying_questions", JValue.arr
          [ JValue.str "What are the expected error responses and status codes for common failure paths?",
            JValue.str "What timeouts and retry policies should clients use?",
            JValue.str "How should the system behave on duplicate create requests?" ]) ]),
    ("risk_flags", JValue.arr
      [ JValue.obj
          [ ("risk", JValue.str "Undefined API contract"), ("severity", JValue.str "High"),
            ("mitigation", JValue.str "Document endpoints, schemas, auth, and error handling.") ],
        JValue.obj
          [ ("risk", JValue.str "Unclear success metrics"), ("severity", JValue.str "Medium"),
            ("mitigation", JValue.str "Define measurable targets and acceptance criteria.") ] ]),
    ("acceptance_criteria", JValue.arr
      [ JValue.obj
          [ ("given", JValue.str "a valid request payload"),
            ("when", JValue.str "the client calls the endpoint"),
            ("then", JValue.str "the service returns a 2xx response with the expected schema") ],
        JValue.obj
          [ ("given", JValue.str "an invalid request payload"),
            ("when", JValue.str "the client calls the endpoint"),
            ("then", JValue.str "the service returns a 4xx response with a standardized error format") ] ]) ]

/-- The nine required top-level keys of the Report data model. -/
def requiredKeys : List String :=
  [ "clarity_score", "risk_level", "executive_summary", "contract_completeness",
    "measurability_audit", "ambiguity_flags", "edge_case_coverage", "risk_flags",
    "acceptance_criteria" ]

/-! ### Shape normalisation (`_ensure_required_shape`) -/

/-- Source `_ensure_required_shape(report)`: merge the parsed object over the
default report, then coerce `clarity_score` with `int()` (default score on
failure) and normalise `risk_level` with strip/title/membership (forcing
"High" otherwise).  The argument is the entry list of the parsed object: the
extracted JSON always parses to a dict in `run_audit`. -/
def ensureRequiredShape (report : List (String × JValue)) : List (String × JValue) :=
  let merged := mergeList defaultReport report
  let score : Int := (pyInt ((lookupKey merged "clarity_score").getD (JValue.int 20))).getD 20
  let m1 := dictSet merged "clarity_score" (JValue.int score)
  let risk : String :=
    normalizeRiskStr (match lookupKey m1 "risk_level" with
      | some v => pyStr v
      | none => "High")
  dictSet m1 "risk_level" (JValue.str risk)

/-! ### `json.loads` (restricted to integer numbers) -/

/-- JSON whitespace skipped by `json.loads`. -/
def skipWs : List Char → List Char
  | c :: cs => if c = ' ' || c = '\t' || c = '\n' || c = '\r' then skipWs cs else c :: cs
  | [] => []

/-- Single-character string escapes of JSON, as a lookup table from the
escape letter to the decoded character. -/
def escChar (e : Char) : Option Char :=
  List.lookup e
    [ ('"', '"'), ('\\', '\\'), ('/', '/'), ('n', '\n'), ('t', '\t'),
      ('r', '\r'), ('b', '\x08'), ('f', '\x0c') ]

/-- Value of a hexadecimal digit (codepoints 48-57 are 0-9, 97-102 are a-f,
65-70 are A-F). -/
def hexVal (c : Char) : Option Nat :=
  let n := c.toNat
  if 48 ≤ n && n ≤ 57 then some (n - 48)
  else if 97 ≤ n && n ≤ 102 then some (n - 87)
  else if 65 ≤ n && n ≤ 70 then some (n - 55)
  else none

/-- JSON string body after the opening quote; rejects raw control
characters as `json.loads` does in its default strict mode. -/
def jstrBody : List Char → Option (List Char × List Char)
  | [] => none
  | '"' :: rest => some ([], rest)
  | '\\' :: 'u' :: a :: b :: c :: d :: rest =>
    match hexVal a, hexVal b, hexVal c, hexVal d with
    | some ha, some hb, some hc, some hd =>
      (jstrBody rest).map (fun (s, r) =>
        (Char.ofNat (((ha * 16 + hb) * 16 + hc) * 16 + hd) :: s, r))
    | _, _, _, _ => none
  | '\\' :: e :: rest =>
    match escChar e with
    | some c => (jstrBody rest).map (fun (s, r) => (c :: s, r))
    | none => none
  | c :: rest =>
    if c.toNat < 32 then none
    else (jstrBody rest).map (fun (s, r) => (c :: s, r))

/-- JSON integer literal starting at its first digit: no leading zeros, and
a following `.`/`e`/`E` (a float) is outside the embedding and rejected. -/
def jparseNumCore (cs : List Char) : Option (Nat × List Char) :=
  match cs with
  | c :: rest =>
    if c.isDigit then
      let ds := rest.takeWhile Char.isDigit
      let rest2 := rest.dropWhile Char.isDigit
      if c = '0' && ds ≠ [] then none
      else
        match rest2 with
        | d :: _ =>
          if d = '.' || d = 'e' || d = 'E' then none
          else some (digitsToNat (c :: ds), rest2)
        | [] => some (digitsToNat (c :: ds), rest2)
    else none
  | [] => none

mutual

/-- Recursive-descent JSON value parser (`json.loads`), fuel-indexed for
termination; `jsonLoads` supplies fuel that dominates the input length so
exhaustion is unreachable. -/
def jparseValue : Nat → List Char → Option (JValue × List Char)
  | 0, _ => none
  | fuel + 1, cs =>
    match skipWs cs with
    | '\x7b' :: rest =>
      match skipWs rest with
      | '\x7d' :: r2 => some (JValue.obj [], r2)
      | _ => jparseMembers fuel [] rest
    | '[' :: rest =>
      match skipWs rest with
      | ']' :: r2 => some (JValue.arr [], r2)
      | _ => jparseItems fuel [] rest
    | '"' :: rest => (jstrBody rest).map (fun (s, r) => (JValue.str (String.mk s), r))
    | 't' :: 'r' :: 'u' :: 'e' :: rest => some (JValue.bool true, rest)
    | 'f' :: 'a' :: 'l' :: 's' :: 'e' :: rest => some (JValue.bool false, rest)
    | 'n' :: 'u' :: 'l' :: 'l' :: rest => some (JValue.null, rest)
    | '-' :: rest => (jparseNumCore rest).map (fun (n, r) => (JValue.int (-(n : Int)), r))
    | c :: rest =>
      if c.isDigit then (jparseNumCore (c :: rest)).map (fun (n, r) => (JValue.int (n : Int), r))
      else none
    | [] => none

/-- Members of a JSON object after the opening brace (at least one member);
duplicate keys resolve as Python dicts do: the later value wins, the first
position is kept. -/
def jparseMembers : Nat → List (String × JValue) → List Char → Option (JValue × List Char)
  | 0, _, _ => none
  | fuel + 1, acc, cs =>
    match skipWs cs with
    | '"' :: rest =>
      match jstrBody rest with
      | none => none
      | some (key, rest2) =>
        match skipWs rest2 with
        | ':' :: rest3 =>
          match jparseValue fuel rest3 with
          | none => none
          | some (v, rest4) =>
            let acc' := dictSet acc (String.mk key) v
            match skipWs rest4 with
            | ',' :: rest5 => jparseMembers fuel acc' rest5
            | '\x7d' :: rest5 => some (JValue.obj acc', rest5)
            | _ => none
        | _ => none
    | _ => none

/-- Items of a JSON array after the opening bracket (at least one item). -/
def jparseItems : Nat → List JValue → List Char → Option (JValue × List Char)
  | 0, _, _ => none
  | fuel + 1, acc, cs =>
    match jparseValue fuel cs with
    | none => none
    | some (v, rest) =>
      match skipWs rest with
      | ',' :: rest2 => jparseItems fuel (acc ++ [v]) rest2
      | ']' :: rest2 => some (JValue.arr (acc ++ [v]), rest2)
      | _ => none

end

/-- Python `json.loads(s)`: parse one JSON value and require only whitespace after
it; `none` models the raised `JSONDecodeError`. -/
def jsonLoads (s : String) : Option JValue :=
  match jparseValue (2 * s.data.length + 4) s.data with
  | some (v, rest) => if skipWs rest = [] then some v else none
  | none => none

/-! ### JSON extraction (`_extract_json_object`, `_safe_parse_json`) -/

/-- Python `text.startswith(c)` for a one-character pattern. -/
def headIs : List Char → Char → Bool
  | c :: _, c0 => c = c0
  | [], _ => false

/-- Python `text.endswith(c)` for a one-character pattern. -/
def lastIs (cs : List Char) (c0 : Char) : Bool :=
  headIs cs.reverse c0

/-- The suffix of `cs` starting at the first occurrence of `c0`. -/
def suffixFromFirst : List Char → Char → Option (List Char)
  | [], _ => none
  | c :: cs, c0 => if c = c0 then some (c :: cs) else suffixFromFirst cs c0

/-- The prefix of `cs` ending at the last occurrence of `c0`. -/
def prefixToLast (cs : List Char) (c0 : Char) : Option (List Char) :=
  (suffixFromFirst cs.reverse c0).map List.reverse

/-- The span matched by the greedy DOTALL regex `\x7b.*\x7d`: from the
first `\x7b` to the last `\x7d` after it; `none` when no such span exists,
exactly when `re.search` returns no match. -/
def greedySpan (cs : List Char) : Option (List Char) :=
  (suffixFromFirst cs '\x7b').bind (fun suf => prefixToLast suf '\x7d')

/-- Source `_extract_json_object(text)`: strip; a clean `\x7b...\x7d` object is
taken whole; otherwise the greedy first-brace-to-last-brace span; otherwise
the `ValueError` (modelled as the error message). -/
def extractJsonObject (text : String) : Except String String :=
  let t := pyStripList text.data
  if headIs t '\x7b' && lastIs t '\x7d' then Except.ok (String.mk t)
  else
    match greedySpan t with
    | some span => Except.ok (String.mk (pyStripList span))
    | none => Except.error "No JSON object found in model response."

/-- Source `_safe_parse_json(text)`: extract, then `json.loads`.  The extracted
text always starts with a brace, so a successful parse is always an object;
both failure arms model exceptions caught by the retry loop of `run_audit`. -/
def safeParseJson (text : String) : Except String (List (String × JValue)) :=
  match extractJsonObject text with
  | Except.error e => Except.error e
  | Except.ok raw =>
    match jsonLoads raw with
    | some (JValue.obj kvs) => Except.ok kvs
    | _ => Except.error "Model response is not valid JSON."

/-! ### Prompt construction (`build_master_prompt`) -/

/-- The literal JSON-schema block of the master prompt (the doubled braces
of the Python f-string render as single braces). -/
def schemaBlock : String :=
  String.intercalate "\n"
    [ "\x7b",
      "  \"clarity_score\": <integer 0-100>,",
      "  \"risk_level\": \"<Low|Medium|High>\",",
      "  \"executive_summary\": \x7b",
      "    \"top_gaps\": [<string>, <string>, <string>],",
      "    \"top_quick_fixes\": [<string>, <string>, <string>]",
      "  \x7d,",
      "  \"contract_completeness\": \x7b",
      "    \"checklist\": [",
      "      \x7b",
      "        \"item\": \"<string>\",",
      "        \"status\": \"<Yes|No|Partial>\",",
      "        \"notes\": \"<string>\"",
      "      \x7d",
      "    ]",
      "  \x7d,",
      "  \"measurability_audit\": \x7b",
      "    \"missing_metrics\": [<string>],",
      "    \"suggested_metrics\": [<string>]",
      "  \x7d,",
      "  \"ambiguity_flags\": [",
      "    \x7b",
      "      \"phrase\": \"<string>\",",
      "      \"issue\": \"<string>\",",
      "      \"suggested_rewrite\": \"<string>\"",
      "    \x7d",
      "  ],",
      "  \"edge_case_coverage\": \x7b",
      "    \"missing_edge_cases\": [<string>],",
      "    \"clarifying_questions\": [<string>]",
      "  \x7d,",
      "  \"risk_flags\": [",
      "    \x7b",
      "      \"risk\": \"<string>\",",
      "      \"severity\": \"<Low|Medium|High>\",",
      "      \"mitigation\": \"<string>\"",
      "    \x7d",
      "  ],",
      "  \"acceptance_criteria\": [",
      "    \x7b",
      "      \"given\": \"<string>\",",
      "      \"when\": \"<string>\",",
      "      \"then\": \"<string>\"",
      "    \x7d",
      "  ]",
      "\x7d" ]

/-- Source `build_master_prompt(requirement_text)`: the fixed audit rubric with the
requirement text embedded in a triple-quoted block, `.strip()`-ed. -/
def buildMasterPrompt (requirementText : String) : String :=
  pyStripStr
    ("\nYou are the AI Requirement Clarity Auditor.\n\nYour job:\nEvaluate the requirement for implementation readiness as if you are a senior backend architect reviewing a production API specification.\n\nBe strict. Penalize ambiguity. Penalize missing contracts.\n\nImportant constraints:\n- Return ONLY valid JSON.\n- Output must match the schema EXACTLY.\n- Do not include markdown, code fences, or commentary.\n- Do not include extra keys.\n- Do not include trailing commas.\n- Use double quotes for all JSON strings.\n- clarity_score must be an integer between 0 and 100.\n- risk_level must be exactly one of: Low, Medium, High.\n- If the requirement is vague or incomplete, assign a low clarity_score and High risk_level.\n\nOutput JSON schema (exact keys required):\n\n"
      ++ schemaBlock
      ++ "\n\nScoring guidance (use these categories implicitly):\n- Contract completeness (endpoints, schemas, auth, errors, versioning)\n- Measurability (latency, throughput, SLAs, timeouts, success metrics)\n- Edge case coverage (invalid inputs, auth failures, retries, idempotency, dependency failures)\n- Ambiguity control (avoid vague terms like fast, scalable, user-friendly without numbers)\n- Risk awareness (dependencies, security/compliance, observability)\n- Testability (Given/When/Then acceptance criteria)\n\nRisk level guidance:\n- High: missing core API contract elements or heavy ambiguity\n- Medium: core exists but multiple gaps remain\n- Low: clear, measurable, edge-case aware, testable\n\nRequirement text:\n\"\"\""
      ++ requirementText ++ "\"\"\"\n")

/-! ### The audit entry point (`run_audit`) -/

/-- The reminder appended to the prompt after a failed attempt. -/
def reminderSuffix : String :=
  "\n\nReminder: Return ONLY valid JSON exactly matching the schema. No extra text."

/-- One iteration of the retry loop of `run_audit`.  The external model client is
the black box `respond`: given the attempt index and the prompt it either
returns the response text (`resp.text`, or `str(resp)` when `text` is
absent) or raises (`Except.error`, covering transport errors).  The
extraction/parse exceptions of `_safe_parse_json` are the other error arm;
any error is caught by the loop. -/
def attemptOnce (respond : Nat → String → Except String String) (i : Nat) (prompt : String) :
    Except String (List (String × JValue)) :=
  match respond i prompt with
  | Except.error e => Except.error e
  | Except.ok raw =>
    match safeParseJson raw with
    | Except.error e => Except.error e
    | Except.ok parsed => Except.ok (ensureRequiredShape parsed)

/-- Python `xs[0] = v` on a list (in the fallback, `top_gaps` always has three
entries, so the empty case is unreachable). -/
def setIndex0 : List JValue → JValue → List JValue
  | [], _ => []
  | _ :: xs, v => v :: xs

/-- The diagnostic placed in the first top gap of the fallback, with the
text of the last error interpolated. -/
def diagMsg (e : String) : String :=
  "Model response could not be parsed as JSON. Using fallback report. Error: " ++ e

/-- The fallback returned when both attempts fail:
`fallback["executive_summary"]["top_gaps"][0]` is replaced by the
diagnostic message. -/
def fallbackReport (e : String) : List (String × JValue) :=
  updateKey defaultReport "executive_summary" (fun es =>
    match es with
    | JValue.obj kvs => JValue.obj (updateKey kvs "top_gaps" (fun tg =>
        match tg with
        | JValue.arr xs => JValue.arr (setIndex0 xs (JValue.str (diagMsg e)))
        | other => other))
    | other => other)

/-- Source `run_audit(requirement_text)`.  `None` input is the `requirement_text or
""` coalescing; the two loop iterations are unrolled (`attempts = 2`), the
reminder is appended to the existing prompt after a failure, and the last
error reaches the fallback.  Configuration (`get_client_and_model`) is
assumed to succeed: the client it yields is the `respond` black box. -/
def runAudit (respond : Nat → String → Except String String)
    (requirementText : Option String) : List (String × JValue) :=
  let text := pyStripStr (requirementText.getD "")
  if text = "" then defaultReport
  else
    let prompt0 := buildMasterPrompt text
    match attemptOnce respond 0 prompt0 with
    | Except.ok shaped => shaped
    | Except.error _ =>
      match attemptOnce respond 1 (prompt0 ++ reminderSuffix) with
      | Except.ok shaped => shaped
      | Except.error e2 => fallbackReport e2

/-- Observation: the first entry of `executive_summary.top_gaps`. -/
def topGapsHead (r : List (String × JValue)) : Option JValue :=
  match lookupKey r "executive_summary" with
  | some (JValue.obj es) =>
    match lookupKey es "top_gaps" with
    | some (JValue.arr (g :: _)) => some g
    | _ => none
  | _ => none

/-! ### Evaluation of the well-founded merge through its fuel twin -/

theorem jvalue_sizeOf_pos (v : JValue) : 0 < sizeOf v := by
  cases v <;> simp_arith

theorem mergeF_eq_aux (fuel : Nat) :
    (∀ a b, sizeOf b ≤ fuel → mergeF fuel a b = merge a b) ∧
    (∀ out bs, sizeOf bs ≤ fuel → mergeListF fuel out bs = mergeList out bs) := by
  induction fuel with
  | zero =>
    constructor
    · intro a b hb
      exact absurd hb (by have := jvalue_sizeOf_pos b; omega)
    · intro out bs hbs
      cases bs with
      | nil => simp [mergeListF, mergeList]
      | cons p rest => simp_arith at hbs
  | succ fuel ih =>
    constructor
    · intro a b hb
      cases a <;> cases b <;> simp_all [mergeF, merge]
      case obj.obj as bs =>
        have hbs : sizeOf bs ≤ fuel := by simp_arith at hb; omega
        exact ih.2 as bs hbs
    · intro out bs hbs
      cases bs with
      | nil => simp [mergeListF, mergeList]
      | cons p rest =>
        obtain ⟨k, v⟩ := p
        have hv : sizeOf v ≤ fuel := by simp_arith at hbs; omega
        have hr : sizeOf rest ≤ fuel := by simp_arith at hbs; omega
        cases h : lookupKey out k with
        | some old =>
          simp only [mergeListF, mergeList, h]
          rw [ih.1 old v hv, ih.2 _ rest hr]
        | none =>
          simp only [mergeListF, mergeList, h]
          rw [ih.2 _ rest hr]

/-- Function `merge` can be evaluated through its fuel twin. -/
theorem merge_eval (a b : JValue) : merge a b = mergeF (sizeOf b) a b :=
  ((mergeF_eq_aux (sizeOf b)).1 a b (Nat.le_refl _)).symm

/-- Function `mergeList` can be evaluated through its fuel twin. -/
theorem mergeList_eval (out bs : List (String × JValue)) :
    mergeList out bs = mergeListF (sizeOf bs) out bs :=
  ((mergeF_eq_aux (sizeOf bs)).2 out bs (Nat.le_refl _)).symm

/-! ### Key-preservation lemmas for the dict operations -/

theorem lookupKey_dictSet_self (l : List (String × JValue)) (k : String) (v : JValue) :
    lookupKey (dictSet l k v) k = some v := by
  induction l with
  | nil => simp [dictSet, lookupKey]
  | cons p rest ih =>
    obtain ⟨k', v'⟩ := p
    by_cases h : k' = k <;> simp [dictSet, lookupKey, h, ih]

theorem lookupKey_dictSet_ne (l : List (String × JValue)) (k k' : String) (v : JValue)
    (h : k ≠ k') : lookupKey (dictSet l k v) k' = lookupKey l k' := by
  induction l with
  | nil => simp [dictSet, lookupKey, h]
  | cons p rest ih =>
    obtain ⟨k'', v''⟩ := p
    by_cases h2 : k'' = k
    · subst h2
      simp [dictSet, lookupKey, h]
    · simp [dictSet, lookupKey, h2, ih]

theorem containsKey_dictSet_of (l : List (String × JValue)) (k k' : String) (v : JValue)
    (h : containsKey l k' = true) : containsKey (dictSet l k v) k' = true := by
  by_cases hk : k = k'
  · subst hk
    simp [containsKey, lookupKey_dictSet_self]
  · simpa [containsKey, lookupKey_dictSet_ne l k k' v hk] using h

theorem containsKey_mergeList_left (b a : List (String × JValue)) (k : String)
    (h : containsKey a k = true) : containsKey (mergeList a b) k = true := by
  induction b generalizing a with
  | nil => simpa [mergeList] using h
  | cons p rest ih =>
    obtain ⟨k0, v⟩ := p
    cases h0 : lookupKey a k0 with
    | some old =>
      simp only [mergeList, h0]
      exact ih _ (containsKey_dictSet_of _ _ _ _ h)
    | none =>
      simp only [mergeList, h0]
      exact ih _ (containsKey_dictSet_of _ _ _ _ h)

theorem containsKey_mergeList_right (b a : List (String × JValue)) (k : String)
    (h : containsKey b k = true) : containsKey (mergeList a b) k = true := by
  induction b generalizing a with
  | nil => simp [containsKey, lookupKey] at h
  | cons p rest ih =>
    obtain ⟨k0, v⟩ := p
    by_cases hk : k0 = k
    · subst hk
      cases h0 : lookupKey a k0 with
      | some old =>
        simp only [mergeList, h0]
        exact containsKey_mergeList_left _ _ _
          (by simp [containsKey, lookupKey_dictSet_self])
      | none =>
        simp only [mergeList, h0]
        exact containsKey_mergeList_left _ _ _
          (by simp [containsKey, lookupKey_dictSet_self])
    · have hrest : containsKey rest k = true := by
        simpa [containsKey, lookupKey, hk] using h
      cases h0 : lookupKey a k0 with
      | some old => simp only [mergeList, h0]; exact ih _ hrest
      | none => simp only [mergeList, h0]; exact ih _ hrest

theorem lookupKey_mergeList_congr (b a a' : List (String × JValue)) (k : String)
    (h : lookupKey a k = lookupKey a' k) :
    lookupKey (mergeList a b) k = lookupKey (mergeList a' b) k := by
  induction b generalizing a a' with
  | nil => simpa [mergeList] using h
  | cons p rest ih =>
    obtain ⟨k0, v⟩ := p
    by_cases hk : k0 = k
    · subst hk
      cases h0 : lookupKey a k0 with
      | some old =>
        have h0' : lookupKey a' k0 = some old := by rw [← h, h0]
        simp only [mergeList, h0, h0']
        exact ih _ _ (by rw [lookupKey_dictSet_self, lookupKey_dictSet_self])
      | none =>
        have h0' : lookupKey a' k0 = none := by rw [← h, h0]
        simp only [mergeList, h0, h0']
        exact ih _ _ (by rw [lookupKey_dictSet_self, lookupKey_dictSet_self])
    · cases h0 : lookupKey a k0 <;> cases h0' : lookupKey a' k0 <;>
        simp only [mergeList, h0, h0'] <;>
        exact ih _ _ (by rw [lookupKey_dictSet_ne _ _ _ _ hk, lookupKey_dictSet_ne _ _ _ _ hk, h])

theorem containsKey_updateKey (l : List (String × JValue)) (k k' : String)
    (f : JValue → JValue) : containsKey (updateKey l k f) k' = containsKey l k' := by
  induction l with
  | nil => simp [updateKey]
  | cons p rest ih =>
    obtain ⟨k'', v''⟩ := p
    by_cases h : k'' = k
    · subst h
      by_cases h' : k'' = k' <;> simp [updateKey, containsKey, lookupKey, h'] at ih ⊢
    · by_cases h' : k'' = k'
      · subst h'
        simp [updateKey, containsKey, lookupKey, h]
      · simp [updateKey, containsKey, lookupKey, h, h'] at ih ⊢
        exact ih

/-! ### Structure lemmas about `_ensure_required_shape` and `run_audit` -/

/-- Merging one more leading entry at key `k` does not change what any
other key looks up to. -/
theorem lookupKey_mergeList_cons (a : List (String × JValue)) (k : String) (v : JValue)
    (p : List (String × JValue)) (k' : String) (hk : k ≠ k') :
    lookupKey (mergeList a ((k, v) :: p)) k' = lookupKey (mergeList a p) k' := by
  cases h0 : lookupKey a k with
  | some old =>
    simp only [mergeList, h0]
    exact lookupKey_mergeList_congr p _ _ k' (lookupKey_dictSet_ne _ _ _ _ hk)
  | none =>
    simp only [mergeList, h0]
    exact lookupKey_mergeList_congr p _ _ k' (lookupKey_dictSet_ne _ _ _ _ hk)

/-- In the shaped report, `clarity_score` is the `int()`-coerced merged value
(default 20 when coercion fails). -/
theorem shape_clarity_eq (p : List (String × JValue)) :
    lookupKey (ensureRequiredShape p) "clarity_score" =
      some (JValue.int ((pyInt ((lookupKey (mergeList defaultReport p)
        "clarity_score").getD (JValue.int 20))).getD 20)) := by
  show lookupKey (dictSet (dictSet _ "clarity_score" _) "risk_level" _) "clarity_score" = _
  rw [lookupKey_dictSet_ne _ _ _ _ (by decide), lookupKey_dictSet_self]

/-- In the shaped report, `risk_level` is the strip/title/membership
normalisation of the merged value (string-converted; "High" when absent). -/
theorem shape_risk_eq (p : List (String × JValue)) :
    lookupKey (ensureRequiredShape p) "risk_level" =
      some (JValue.str (normalizeRiskStr
        (match lookupKey (mergeList defaultReport p) "risk_level" with
         | some v => pyStr v
         | none => "High"))) := by
  have h1 : lookupKey (dictSet (mergeList defaultReport p) "clarity_score"
      (JValue.int ((pyInt ((lookupKey (mergeList defaultReport p)
        "clarity_score").getD (JValue.int 20))).getD 20))) "risk_level"
      = lookupKey (mergeList defaultReport p) "risk_level" :=
    lookupKey_dictSet_ne _ _ _ _ (by decide)
  show lookupKey (dictSet _ "risk_level" _) "risk_level" = _
  rw [lookupKey_dictSet_self, h1]

/-- Function `normalizeRiskStr` only produces the three canonical tokens. -/
theorem normalizeRiskStr_mem (s : String) :
    normalizeRiskStr s = "Low" ∨ normalizeRiskStr s = "Medium" ∨
      normalizeRiskStr s = "High" := by
  simp only [normalizeRiskStr]
  split
  next h =>
    have h' : (pyTitleStr (pyStripStr s) = "Low" ∨ pyTitleStr (pyStripStr s) = "Medium")
        ∨ pyTitleStr (pyStripStr s) = "High" := by simpa using h
    rcases h' with (h1 | h1) | h1 <;> simp [h1]
  next h => right; right; rfl

/-- Every key of the default report, and every key of the parsed object,
is a key of the shaped report. -/
theorem containsKey_shape (p : List (String × JValue)) (k : String)
    (h : containsKey defaultReport k = true ∨ containsKey p k = true) :
    containsKey (ensureRequiredShape p) k = true := by
  have hm : containsKey (mergeList defaultReport p) k = true := by
    rcases h with h | h
    · exact containsKey_mergeList_left _ _ _ h
    · exact containsKey_mergeList_right _ _ _ h
  show containsKey (dictSet (dictSet _ _ _) _ _) k = true
  exact containsKey_dictSet_of _ _ _ _ (containsKey_dictSet_of _ _ _ _ hm)

/-- A successful attempt always returns a shaped report. -/
theorem attemptOnce_ok_shape (respond : Nat → String → Except String String)
    (i : Nat) (prompt : String) (shaped : List (String × JValue))
    (h : attemptOnce respond i prompt = Except.ok shaped) :
    ∃ parsed, shaped = ensureRequiredShape parsed := by
  unfold attemptOnce at h
  cases hr : respond i prompt with
  | error e => rw [hr] at h; exact absurd h (by simp)
  | ok raw =>
    rw [hr] at h
    dsimp only at h
    cases hp : safeParseJson raw with
    | error e => rw [hp] at h; exact absurd h (by simp)
    | ok parsed =>
      rw [hp] at h
      dsimp only at h
      exact ⟨parsed, by injection h with h; exact h.symm⟩

/-- Function `run_audit` returns the default report, a shaped report, or the
fallback report. -/
theorem runAudit_result_cases (respond : Nat → String → Except String String)
    (text : Option String) :
    runAudit respond text = defaultReport ∨
    (∃ parsed, runAudit respond text = ensureRequiredShape parsed) ∨
    (∃ e, runAudit respond text = fallbackReport e) := by
  simp only [runAudit]
  split
  · exact Or.inl rfl
  · cases h0 : attemptOnce respond 0
        (buildMasterPrompt (pyStripStr (Option.getD text ""))) with
    | ok shaped =>
      obtain ⟨parsed, hp⟩ := attemptOnce_ok_shape _ _ _ _ h0
      exact Or.inr (Or.inl ⟨parsed, hp⟩)
    | error e1 =>
      cases h1 : attemptOnce respond 1
          (buildMasterPrompt (pyStripStr (Option.getD text "")) ++ reminderSuffix) with
      | ok shaped =>
        obtain ⟨parsed, hp⟩ := attemptOnce_ok_shape _ _ _ _ h1
        exact Or.inr (Or.inl ⟨parsed, hp⟩)
      | error e2 => exact Or.inr (Or.inr ⟨e2, rfl⟩)

/-! ### The claims -/

/-- Claim C1: for every requirement text and every behaviour of the
configured model client (in particular for every non-empty text when
configuration succeeds), `run_audit` returns normally — it is a total
function of the replies of the client — and its result contains all nine
top-level keys of the Report data model. -/
theorem run_audit_total_and_nine_keys (respond : Nat → String → Except String String)
    (text : Option String) :
    requiredKeys.all (fun k => containsKey (runAudit respond text) k) = true := by
  rw [List.all_eq_true]
  intro k hk
  have hdef : containsKey defaultReport k = true := by
    fin_cases hk <;> decide
  rcases runAudit_result_cases respond text with h | ⟨parsed, h⟩ | ⟨e, h⟩ <;> rw [h]
  · exact hdef
  · exact containsKey_shape parsed k (Or.inl hdef)
  · simp only [fallbackReport]
    rw [containsKey_updateKey]
    exact hdef

/-- Claim C2 counterexample: the claim says out-of-range clarity scores are
clamped to [0, 100], but a parsed `clarity_score` of 150 survives shape
normalisation unchanged — `_ensure_required_shape` only coerces with
`int()` and never clamps. -/
theorem clarity_score_not_clamped_counterexample :
    lookupKey (ensureRequiredShape [("clarity_score", JValue.int 150)]) "clarity_score"
      = some (JValue.int 150) ∧ ¬ ((150 : Int) ≤ 100) := by
  constructor
  · simp only [ensureRequiredShape, mergeList_eval]; rfl
  · decide

/-- Claim C2 (amended): for every parsed object the `clarity_score` of the
shaped report is an integer — the merged value coerced by Python `int()`,
falling back to the default 20 when coercion fails — but it is not clamped
to [0, 100]. -/
theorem clarity_score_always_int :
    (∀ p : List (String × JValue),
      ∃ n : Int, lookupKey (ensureRequiredShape p) "clarity_score" = some (JValue.int n)) ∧
    lookupKey (ensureRequiredShape [("clarity_score", JValue.str "42")]) "clarity_score"
      = some (JValue.int 42) ∧
    lookupKey (ensureRequiredShape [("clarity_score", JValue.str "not a number")])
      "clarity_score" = some (JValue.int 20) ∧
    lookupKey (ensureRequiredShape [("clarity_score", JValue.null)]) "clarity_score"
      = some (JValue.int 20) := by
  refine ⟨fun p => ⟨_, shape_clarity_eq p⟩, ?_, ?_, ?_⟩ <;>
    (simp only [ensureRequiredShape, mergeList_eval]; rfl)

/-- Claim C3: for every parsed object the `risk_level` of the shaped report is
exactly one of "Low", "Medium", "High"; the raw value is stripped and
title-cased, invalid values (and a null or absent one) become "High". -/
theorem risk_level_canonical :
    (∀ p : List (String × JValue),
      lookupKey (ensureRequiredShape p) "risk_level" = some (JValue.str "Low") ∨
      lookupKey (ensureRequiredShape p) "risk_level" = some (JValue.str "Medium") ∨
      lookupKey (ensureRequiredShape p) "risk_level" = some (JValue.str "High")) ∧
    lookupKey (ensureRequiredShape [("risk_level", JValue.str "  low ")]) "risk_level"
      = some (JValue.str "Low") ∧
    lookupKey (ensureRequiredShape [("risk_level", JValue.str "MEDIUM")]) "risk_level"
      = some (JValue.str "Medium") ∧
    lookupKey (ensureRequiredShape [("risk_level", JValue.str "banana")]) "risk_level"
      = some (JValue.str "High") ∧
    lookupKey (ensureRequiredShape [("risk_level", JValue.null)]) "risk_level"
      = some (JValue.str "High") ∧
    lookupKey (ensureRequiredShape []) "risk_level" = some (JValue.str "High") := by
  refine ⟨fun p => ?_, ?_, ?_, ?_, ?_, ?_⟩
  · rw [shape_risk_eq p]
    rcases normalizeRiskStr_mem
        (match lookupKey (mergeList defaultReport p) "risk_level" with
         | some v => pyStr v
         | none => "High") with h | h | h <;> rw [h] <;> simp
  all_goals (simp only [ensureRequiredShape, mergeList_eval]; rfl)

/-- Claim C4: empty, whitespace-only or missing requirement text
short-circuits `run_audit` to the default report — uniformly in the model
client, which is therefore never consulted — and the `risk_level` of that
report is "High". -/
theorem empty_input_short_circuits (respond : Nat → String → Except String String)
    (text : Option String) (h : pyStripStr (text.getD "") = "") :
    runAudit respond text = defaultReport ∧
    lookupKey defaultReport "risk_level" = some (JValue.str "High") := by
  constructor
  · simp [runAudit, h]
  · rfl

/-- Witness for C4 at a concrete whitespace-only input and a concrete
client. -/
theorem empty_input_short_circuits_witness :
    pyStripStr ((some "  \t ").getD "") = "" ∧
    runAudit (fun _ _ => Except.error "down") (some "  \t ") = defaultReport :=
  ⟨by decide,
   (empty_input_short_circuits (fun _ _ => Except.error "down") (some "  \t ")
     (by decide)).1⟩

/-- Claim C5: `run_audit` makes at most two attempts (its result depends on
the client only at attempt indices 0 and 1); after the first failure the
reminder is appended to the end of the existing prompt (the second attempt
uses `buildMasterPrompt t ++ reminderSuffix`, the original prompt is not
replaced); and when both attempts fail the result is the default report
with the first `top_gaps` entry replaced by a diagnostic naming the last
error, not a raised exception. -/
theorem retry_twice_then_fallback (respond : Nat → String → Except String String)
    (text : Option String) (t e1 e2 : String)
    (ht : pyStripStr (text.getD "") = t) (hne : t ≠ "")
    (h1 : attemptOnce respond 0 (buildMasterPrompt t) = Except.error e1)
    (h2 : attemptOnce respond 1 (buildMasterPrompt t ++ reminderSuffix) = Except.error e2) :
    runAudit respond text = fallbackReport e2 ∧
    topGapsHead (fallbackReport e2) = some (JValue.str (diagMsg e2)) ∧
    ∀ respond' : Nat → String → Except String String,
      respond' 0 = respond 0 → respond' 1 = respond 1 →
      runAudit respond' text = runAudit respond text := by
  subst ht
  refine ⟨?_, rfl, ?_⟩
  · simp only [runAudit, if_neg hne, h1, h2]
  · intro respond' h0 h1'
    simp only [runAudit, attemptOnce, h0, h1']

/-- Witness for C5 at a client that always raises. -/
theorem retry_twice_then_fallback_witness :
    pyStripStr ((some "Create an API").getD "") = "Create an API" ∧
    ("Create an API" : String) ≠ "" ∧
    attemptOnce (fun _ _ => Except.error "boom") 0 (buildMasterPrompt "Create an API")
      = Except.error "boom" ∧
    attemptOnce (fun _ _ => Except.error "boom") 1
      (buildMasterPrompt "Create an API" ++ reminderSuffix) = Except.error "boom" ∧
    runAudit (fun _ _ => Except.error "boom") (some "Create an API")
      = fallbackReport "boom" :=
  ⟨by decide, by decide, rfl, rfl,
   (retry_twice_then_fallback (fun _ _ => Except.error "boom") (some "Create an API")
     "Create an API" "boom" "boom" (by decide) (by decide) rfl rfl).1⟩

/-- Claim C6: JSON extraction parses a bare object whole, extracts the
object out of surrounding prose/code fences via the greedy first-brace to
last-brace span, and fails (raises) on text with no object; in general
trimmed text that starts with `\x7b` and ends with `\x7d` is taken whole,
otherwise the greedy span is taken, otherwise extraction fails. -/
theorem extraction_cases :
    safeParseJson "\x7b\"a\":1\x7d" = Except.ok [("a", JValue.int 1)] ∧
    safeParseJson "Sure! Here is the JSON:\n```json\n\x7b\"a\":1\x7d\n```"
      = Except.ok [("a", JValue.int 1)] ∧
    safeParseJson "not json at all"
      = Except.error "No JSON object found in model response." ∧
    (∀ text : String,
      (headIs (pyStripList text.data) '\x7b' && lastIs (pyStripList text.data) '\x7d') = true →
      extractJsonObject text = Except.ok (String.mk (pyStripList text.data))) ∧
    (∀ text : String,
      (headIs (pyStripList text.data) '\x7b' && lastIs (pyStripList text.data) '\x7d') = false →
      extractJsonObject text =
        match greedySpan (pyStripList text.data) with
        | some span => Except.ok (String.mk (pyStripList span))
        | none => Except.error "No JSON object found in model response.") := by
  refine ⟨rfl, rfl, rfl, fun text h => ?_, fun text h => ?_⟩
  · simp [extractJsonObject, h]
  · simp [extractJsonObject, h]

/-- Witness for the general clauses of C6 at a concrete input. -/
theorem extraction_cases_witness :
    (headIs (pyStripList ("  \x7b\"k\": 2\x7d " : String).data) '\x7b' &&
      lastIs (pyStripList ("  \x7b\"k\": 2\x7d " : String).data) '\x7d') = true ∧
    extractJsonObject "  \x7b\"k\": 2\x7d "
      = Except.ok (String.mk (pyStripList ("  \x7b\"k\": 2\x7d " : String).data)) :=
  ⟨by decide, extraction_cases.2.2.2.1 "  \x7b\"k\": 2\x7d " (by decide)⟩

/-- Claim C7 counterexample: severities inside `risk_flags` are NOT
normalised — an invalid severity "banana" supplied by the model survives
shape normalisation verbatim, unlike the top-level `risk_level`. -/
theorem severity_not_normalized_counterexample :
    lookupKey (ensureRequiredShape
        [("risk_flags", JValue.arr [JValue.obj
          [("risk", JValue.str "x"), ("severity", JValue.str "banana"),
           ("mitigation", JValue.str "")]])]) "risk_flags"
      = some (JValue.arr [JValue.obj
          [("risk", JValue.str "x"), ("severity", JValue.str "banana"),
           ("mitigation", JValue.str "")]]) ∧
    ("banana" : String) ≠ "Low" ∧ ("banana" : String) ≠ "Medium" ∧
    ("banana" : String) ≠ "High" := by
  refine ⟨?_, by decide, by decide, by decide⟩
  simp only [ensureRequiredShape, mergeList_eval]; rfl

/-- Claim C7 (amended): only the top-level `risk_level` is normalised;
whatever `risk_flags` list the parsed object supplies is passed through
unchanged, severities included. -/
theorem risk_flags_passed_through (flags : List JValue) :
    lookupKey (ensureRequiredShape [("risk_flags", JValue.arr flags)]) "risk_flags"
      = some (JValue.arr flags) := by
  show lookupKey (dictSet (dictSet _ "clarity_score" _) "risk_level" _) "risk_flags" = _
  rw [lookupKey_dictSet_ne _ _ _ _ (by decide), lookupKey_dictSet_ne _ _ _ _ (by decide)]
  have h0 : lookupKey defaultReport "risk_flags" = some (JValue.arr
      [ JValue.obj
          [ ("risk", JValue.str "Undefined API contract"), ("severity", JValue.str "High"),
            ("mitigation", JValue.str "Document endpoints, schemas, auth, and error handling.") ],
        JValue.obj
          [ ("risk", JValue.str "Unclear success metrics"), ("severity", JValue.str "Medium"),
            ("mitigation", JValue.str "Define measurable targets and acceptance criteria.") ] ]) := rfl
  simp only [mergeList, h0]
  rw [lookupKey_dictSet_self]
  simp [merge]

/-- Claim C8 counterexample: the claim says a clarity score of 85 with zero
High-severity risk flags yields risk level "Low", but the code never
derives the risk level from the score or the flags — with the model
reporting "High", the shaped report keeps "High". -/
theorem risk_level_not_derived_counterexample :
    lookupKey (ensureRequiredShape
        [("clarity_score", JValue.int 85), ("risk_level", JValue.str "High"),
         ("risk_flags", JValue.arr [])]) "risk_level"
      = some (JValue.str "High") ∧ ("High" : String) ≠ "Low" := by
  refine ⟨?_, by decide⟩
  simp only [ensureRequiredShape, mergeList_eval]; rfl

/-- Claim C8 (amended): the `risk_level` of the shaped report is the normalised
model-supplied value and is independent of both `clarity_score` and
`risk_flags`; no score/flag-count derivation exists in the code. -/
theorem risk_level_independent_of_score_and_flags :
    (∀ (p : List (String × JValue)) (v : JValue),
      lookupKey (ensureRequiredShape (("clarity_score", v) :: p)) "risk_level"
        = lookupKey (ensureRequiredShape p) "risk_level") ∧
    (∀ (p : List (String × JValue)) (flags : List JValue),
      lookupKey (ensureRequiredShape (("risk_flags", JValue.arr flags) :: p)) "risk_level"
        = lookupKey (ensureRequiredShape p) "risk_level") ∧
    lookupKey (ensureRequiredShape
        [("clarity_score", JValue.int 85), ("risk_level", JValue.str "medium"),
         ("risk_flags", JValue.arr [])]) "risk_level"
      = some (JValue.str "Medium") := by
  refine ⟨fun p v => ?_, fun p flags => ?_, ?_⟩
  · rw [shape_risk_eq, shape_risk_eq,
      lookupKey_mergeList_cons defaultReport "clarity_score" v p "risk_level" (by decide)]
  · rw [shape_risk_eq, shape_risk_eq,
      lookupKey_mergeList_cons defaultReport "risk_flags" (JValue.arr flags) p
        "risk_level" (by decide)]
  · simp only [ensureRequiredShape, mergeList_eval]; rfl

/-- Claim C9: merge-with-defaults is idempotent on the default report —
normalising the default report returns it unchanged, as does merging its
entry list over itself — and in general the merge recurses when both sides
are dicts, keeps the default when the parsed value is null, and prefers the
parsed value otherwise. -/
theorem merge_idempotent_on_default :
    ensureRequiredShape defaultReport = defaultReport ∧
    mergeList defaultReport defaultReport = defaultReport ∧
    (∀ (a : List (String × JValue)) (bs : List (String × JValue)),
      merge (JValue.obj a) (JValue.obj bs) = JValue.obj (mergeList a bs)) ∧
    (∀ a : JValue, merge a JValue.null = a) ∧
    (∀ a b : JValue, (JValue.isObj a = false ∨ JValue.isObj b = false) →
      b ≠ JValue.null → merge a b = b) := by
  refine ⟨?_, ?_, fun a bs => by simp [merge], fun a => ?_, fun a b h hb => ?_⟩
  · simp only [ensureRequiredShape, mergeList_eval]; rfl
  · rw [mergeList_eval]; rfl
  · cases a <;> simp [merge]
  · cases a <;> cases b <;> simp_all [merge, JValue.isObj]

/-- Witness for the conditional clause of C9 at concrete scalar values. -/
theorem merge_idempotent_on_default_witness :
    (JValue.isObj (JValue.int 1) = false ∨ JValue.isObj (JValue.int 2) = false) ∧
    JValue.int 2 ≠ JValue.null ∧
    merge (JValue.int 1) (JValue.int 2) = JValue.int 2 :=
  ⟨Or.inl rfl, fun h => JValue.noConfusion h,
   merge_idempotent_on_default.2.2.2.2 (JValue.int 1) (JValue.int 2) (Or.inl rfl)
     (fun h => JValue.noConfusion h)⟩

/-- Claim C10: keys present in the parsed model output but absent from the
default report survive the merge — the defaults are a floor, not a filter —
so every key of the parsed object is a key of the shaped report. -/
theorem extra_keys_survive (p : List (String × JValue)) (k : String)
    (h : containsKey p k = true) :
    containsKey (ensureRequiredShape p) k = true :=
  containsKey_shape p k (Or.inr h)

/-- Witness for C10 at a key outside the nine-key schema. -/
theorem extra_keys_survive_witness :
    containsKey [("totally_extra", JValue.int 7)] "totally_extra" = true ∧
    containsKey (ensureRequiredShape [("totally_extra", JValue.int 7)]) "totally_extra"
      = true :=
  ⟨by decide, extra_keys_survive [("totally_extra", JValue.int 7)] "totally_extra" (by decide)⟩

end Auditor
